import Mathlib

/-!
# Verification of the contract-review pipeline coordination layer

Shallow embedding of the pipeline orchestrator (`src/adk/orchestrator.py`),
the stage state store (`src/memory/memory_bank.py`,
`src/memory/session_service.py`), the retry policy
(`src/adk/error_handling.py`) and the redline severity filter
(`src/adk/agents/redline_suggestion_agent.py`).

Modelling conventions:
* Python exceptions become `Except String α`; the carried string is the
  exception message (`str(e)`).
* Wall-clock timestamps, latencies and the sha256 trace fingerprints are
  omitted from `AgentTrace` (they are opaque real-time data); the fields
  that the control flow reads (`agent_name`, `success`, `error_message`)
  are kept.
* The store is modelled per run: the orchestrator only ever touches the
  one session row keyed by `session_id`, so the store for a run is
  `Option ContractSession` (the row, or absent).
* The six stage executors (external collaborators: parsers and LLM calls)
  are parameters of the orchestrator, each returning `Except String _`.
* `uuid.uuid4()` generation is modelled by the caller supplying the
  session id; backoff sleeps record the slept durations in a list instead
  of blocking.
-/

namespace ContractCopilot

/-! ## Data model (`src/adk/models.py`) -/

/-- `Literal["low", "medium", "high"]` from `RiskAssessment.severity`. -/
inductive Severity where
  | low
  | medium
  | high
deriving DecidableEq, Repr

/-- `class Clause(Struct)` in `src/adk/models.py`. -/
structure Clause where
  id : String
  type : String
  text : String
  start_line : Int
  end_line : Int
  page_number : Int
deriving DecidableEq, Repr

/-- `class RiskAssessment(Struct)` in `src/adk/models.py`. -/
structure RiskAssessment where
  clause_id : String
  severity : Severity
  risk_type : String
  explanation : String
  llm_rationale : Option String := none
deriving DecidableEq, Repr

/-- `class RedlineProposal(Struct)` in `src/adk/models.py`. -/
structure RedlineProposal where
  clause_id : String
  original_text : String
  proposed_text : String
  rationale : String
  diff : String
deriving DecidableEq, Repr

/-- `class NegotiationSummary(Struct)` in `src/adk/models.py`. -/
structure NegotiationSummary where
  checklist : List String
  draft_email : String
  executive_summary : String
  priority_issues : List String
deriving DecidableEq, Repr

/-- `class ContractMetadata(Struct)` in `src/adk/models.py`. -/
structure ContractMetadata where
  parties : List String
  date : Option String := none
  jurisdiction : Option String := none
  contract_type : Option String := none
deriving DecidableEq, Repr

/-- `class AgentTrace(Struct)` in `src/adk/models.py`, restricted to the
fields the control flow reads; `timestamp`, `latency_seconds` and the two
sha256 fingerprints are opaque real-time data and are omitted. -/
structure AgentTrace where
  agent_name : String
  success : Bool
  error_message : Option String := none
deriving DecidableEq, Repr

/-- `class AuditBundle(Struct)` in `src/adk/models.py` (`timestamp`
omitted).  The Python annotation for `negotiation_summary` is
non-optional, but msgspec Structs do not validate at construction time and
`_run_audit_compilation` does pass `None` there, so it is an `Option`. -/
structure AuditBundle where
  session_id : String
  original_contract : String
  extracted_clauses : List Clause
  risk_assessments : List RiskAssessment
  redline_proposals : List RedlineProposal
  negotiation_summary : Option NegotiationSummary
  agent_traces : List AgentTrace
  disclaimer : String
deriving DecidableEq, Repr

/-- `class ContractSession(Struct, kw_only=True)` in `src/adk/models.py`
(timestamps and the raw file blob omitted). -/
structure ContractSession where
  session_id : String
  user_id : String
  filename : String
  file_mime_type : Option String := none
  contract_metadata : ContractMetadata
  normalized_text : String
  extracted_clauses : List Clause := []
  risk_assessments : List RiskAssessment := []
  redline_proposals : List RedlineProposal := []
  negotiation_summary : Option NegotiationSummary := none
  audit_bundle : Option AuditBundle := none
deriving DecidableEq, Repr

/-! ## Stage state store
(`src/memory/memory_bank.py` over `src/memory/session_service.py`)

The store for one run is the session row for that run id, or `none` when
no row exists.  `DatabaseSessionService.get_session` returns `None` for a
missing row; the `MemoryBank` accessors turn that into a raised
`SessionError`, which each accessor's own `except` clause re-wraps with
its `Failed to ...` message. -/

/-- Per-run view of the sessions table: the row for this run id. -/
def Store : Type := Option ContractSession

instance : DecidableEq Store := by
  unfold Store
  infer_instance

/-- `SessionManager.create_new_session` / `DatabaseSessionService.create_session`:
an `INSERT` into the sessions table; a primary-key collision with an
existing row raises (`SessionError: Session creation failed`). -/
def createNewSession (store : Store) (session : ContractSession) :
    Except String Store :=
  match store with
  | some _ => .error "Session creation failed: UNIQUE constraint failed: sessions.session_id"
  | none => .ok (some session)

/-- `MemoryBank.get_session_state`: raises `SessionError` when the row is
absent. -/
def getSessionState (sid : String) (store : Store) :
    Except String ContractSession :=
  match store with
  | none => .error ("Failed to retrieve session state: Session not found: " ++ sid)
  | some s => .ok s

/-- `MemoryBank.get_normalized_text`. -/
def getNormalizedText (sid : String) (store : Store) : Except String String :=
  match store with
  | none => .error ("Failed to retrieve normalized text: Session not found: " ++ sid)
  | some s => .ok s.normalized_text

/-- `MemoryBank.get_clauses`. -/
def getClauses (sid : String) (store : Store) : Except String (List Clause) :=
  match store with
  | none => .error ("Failed to retrieve clauses: Session not found: " ++ sid)
  | some s => .ok s.extracted_clauses

/-- `MemoryBank.get_risk_assessments`. -/
def getRiskAssessments (sid : String) (store : Store) :
    Except String (List RiskAssessment) :=
  match store with
  | none => .error ("Failed to retrieve risk assessments: Session not found: " ++ sid)
  | some s => .ok s.risk_assessments

/-- `MemoryBank.get_redline_proposals`. -/
def getRedlineProposals (sid : String) (store : Store) :
    Except String (List RedlineProposal) :=
  match store with
  | none => .error ("Failed to retrieve redline proposals: Session not found: " ++ sid)
  | some s => .ok s.redline_proposals

/-- `MemoryBank.get_negotiation_summary`. -/
def getNegotiationSummary (sid : String) (store : Store) :
    Except String (Option NegotiationSummary) :=
  match store with
  | none => .error ("Failed to retrieve negotiation summary: Session not found: " ++ sid)
  | some s => .ok s.negotiation_summary

/-- `MemoryBank.get_audit_bundle`. -/
def getAuditBundle (sid : String) (store : Store) :
    Except String (Option AuditBundle) :=
  match store with
  | none => .error ("Failed to retrieve audit bundle: Session not found: " ++ sid)
  | some s => .ok s.audit_bundle

/-- `MemoryBank.store_clauses`: fetches the row, assigns
`session.extracted_clauses = clauses` and runs
`DatabaseSessionService.update_session`, an unconditional SQL `UPDATE` of
every column (the secondary copy in the `state` table uses
`INSERT OR REPLACE` and is likewise overwritten). -/
def storeClauses (sid : String) (store : Store) (clauses : List Clause) :
    Except String Store :=
  match store with
  | none => .error ("Failed to store clauses: Session not found: " ++ sid)
  | some s => .ok (some { s with extracted_clauses := clauses })

/-- `MemoryBank.store_risk_assessments`. -/
def storeRiskAssessments (sid : String) (store : Store)
    (assessments : List RiskAssessment) : Except String Store :=
  match store with
  | none => .error ("Failed to store risk assessments: Session not found: " ++ sid)
  | some s => .ok (some { s with risk_assessments := assessments })

/-- `MemoryBank.store_redline_proposals`. -/
def storeRedlineProposals (sid : String) (store : Store)
    (proposals : List RedlineProposal) : Except String Store :=
  match store with
  | none => .error ("Failed to store redline proposals: Session not found: " ++ sid)
  | some s => .ok (some { s with redline_proposals := proposals })

/-- `MemoryBank.store_negotiation_summary`. -/
def storeNegotiationSummary (sid : String) (store : Store)
    (summary : NegotiationSummary) : Except String Store :=
  match store with
  | none => .error ("Failed to store negotiation summary: Session not found: " ++ sid)
  | some s => .ok (some { s with negotiation_summary := some summary })

/-- `MemoryBank.store_audit_bundle`. -/
def storeAuditBundle (sid : String) (store : Store) (bundle : AuditBundle) :
    Except String Store :=
  match store with
  | none => .error ("Failed to store audit bundle: Session not found: " ++ sid)
  | some s => .ok (some { s with audit_bundle := some bundle })

/-! ## Retry policy (`src/adk/error_handling.py`) -/

/-- `class RetryConfig` in `src/adk/error_handling.py`.  The Python delays
are floats; all delays reachable from the shipped configurations are
exactly representable, so they are modelled as rationals. -/
structure RetryConfig where
  attempts : Nat := 5
  exp_base : Nat := 7
  initial_delay : ℚ := 1
  max_delay : ℚ := 60

/-- `RetryConfig.calculate_delay`:
`min(initial_delay * exp_base ** attempt, max_delay)`. -/
def RetryConfig.calculate_delay (cfg : RetryConfig) (attempt : Nat) : ℚ :=
  min (cfg.initial_delay * (cfg.exp_base : ℚ) ^ attempt) cfg.max_delay

/-- `GEMINI_RETRY_CONFIG` in `src/adk/error_handling.py`. -/
def GEMINI_RETRY_CONFIG : RetryConfig :=
  { attempts := 5, exp_base := 7, initial_delay := 1, max_delay := 60 }

/-- Loop body of the `retry_with_backoff` wrapper.  `f i` is the outcome
of the wrapped call on attempt `i` (0-indexed); `fuel` counts the
attempts still allowed after the current one (the Python loop runs
`attempt` over `range(config.attempts)` and sleeps only while
`attempt < config.attempts - 1`, i.e. while `fuel` is nonzero).  Returns
the overall outcome together with the list of backoff delays slept. -/
def retryGo {α : Type} (cfg : RetryConfig) (f : Nat → Except String α) :
    Nat → Nat → Option String → Except String α × List ℚ
  | _, 0, last => (.error (last.getD "last_exception is None"), [])
  | i, fuel + 1, _ =>
    match f i with
    | .ok a => (.ok a, [])
    | .error e =>
      if fuel = 0 then
        (.error e, [])
      else
        let d := cfg.calculate_delay i
        let rest := retryGo cfg f (i + 1) fuel (some e)
        (rest.1, d :: rest.2)

/-- `retry_with_backoff(config, exceptions)` applied to a call whose
attempt outcomes are `f`: runs up to `cfg.attempts` attempts with
exponential backoff and re-raises the last exception once all attempts
are spent. -/
def retryWithBackoff {α : Type} (cfg : RetryConfig)
    (f : Nat → Except String α) : Except String α × List ℚ :=
  retryGo cfg f 0 cfg.attempts none

/-! ## Trace recorder (`ContractReviewOrchestrator._record_trace`)

`_record_trace` appends one `AgentTrace` per terminal stage outcome; the
timestamp, latency and sha256 fingerprints it fills in are omitted here
(see the module header). -/

/-- `self._record_trace(agent_name, latency, success=True)`. -/
def successTrace (agentName : String) : AgentTrace :=
  { agent_name := agentName, success := true, error_message := none }

/-- `self._record_trace(agent_name, latency, success=False, error=str(e))`. -/
def failureTrace (agentName : String) (e : String) : AgentTrace :=
  { agent_name := agentName, success := false, error_message := some e }

/-! ## Stage executors (external collaborators, §6 of the spec)

The content logic of each stage (parsing, LLM calls) is external; the
orchestrator sees each call as a single outcome.  Each field mirrors the
inputs the orchestrator passes and the part of the returned dict it
consumes. -/

/-- The dict returned by `IngestionAgent.process_file` (the keys the
orchestrator reads). -/
structure IngestOutput where
  normalized_contract : String
  metadata : ContractMetadata
  page_count : Int
deriving DecidableEq, Repr

/-- The six stage executors, as the orchestrator consumes them. -/
structure Executors where
  ingest : Except String IngestOutput
  extract : String → Except String (List Clause)
  score : List Clause → Except String (List RiskAssessment)
  propose : List Clause → List RiskAssessment →
    Except String (List RedlineProposal)
  summarize : List Clause → List RiskAssessment → List RedlineProposal →
    Option ContractMetadata → Except String NegotiationSummary
  audit : String → String → List Clause → List RiskAssessment →
    List RedlineProposal → Option NegotiationSummary → List AgentTrace →
    ContractMetadata → Except String AuditBundle

/-! ## Stage wrappers (`ContractReviewOrchestrator._run_<stage>`) -/

/-- Outcome of the `try` body of one `_run_<stage>` helper: either an
early `return` taken before the executor completed (resume skip or
insufficient-data warning — no trace is recorded and no slot written), or
the full executor path (slot written, successful trace due). -/
inductive StageFlow (ρ : Type) where
  | early (result : ρ)
  | done (store : Store) (result : ρ)

/-- `sum(1 for r in rs if r.severity == "high")`, also the agent-side
`high_risk_count`. -/
def countHighRisk (rs : List RiskAssessment) : Nat :=
  (rs.filter fun r => r.severity == Severity.high).length

/-- Return dict of `_run_ingestion`. -/
structure IngestionResult where
  session_id : String
  normalized_contract : String
  metadata : ContractMetadata
  page_count : Int
  status : Option String := none
deriving DecidableEq, Repr

/-- `_run_ingestion` (orchestrator.py lines 282-392).

Resume check (lines 316-330): when the session row exists with nonempty
`normalized_text`, the skip branch builds its return dict with
`existing_session.contract_metadata.page_count`; `ContractMetadata`
(src/adk/models.py line 52) has no `page_count` field, so that attribute
access raises `AttributeError`, which the surrounding
`except Exception: pass` swallows, falling through to re-ingestion.  When
the lookup itself raises (absent row) the same handler applies.  Either
way execution proceeds to `process_file`, so the skip branch never
returns and is not a reachable path of this function.

On any failure (including the duplicate-key `SessionError` from
`create_new_session` on an already-created session) a failed trace is
recorded and `DocumentParsingError` is raised — the graceful-degradation
flag is never consulted in this stage. -/
def runIngestion (ex : Executors) (filename : Option String) (sid : String)
    (store : Store) (traces : List AgentTrace) :
    Store × List AgentTrace × Except String IngestionResult :=
  match ex.ingest with
  | .error e =>
    (store, traces ++ [failureTrace "IngestionAgent" e],
     .error ("Ingestion failed: " ++ e))
  | .ok r =>
    match createNewSession store
        { session_id := sid
          user_id := "default_user"
          filename := filename.getD "Unknown Contract"
          contract_metadata := r.metadata
          normalized_text := r.normalized_contract } with
    | .error e =>
      (store, traces ++ [failureTrace "IngestionAgent" e],
       .error ("Ingestion failed: " ++ e))
    | .ok store2 =>
      (store2, traces ++ [successTrace "IngestionAgent"],
       .ok { session_id := sid
             normalized_contract := r.normalized_contract
             metadata := r.metadata
             page_count := r.page_count })

/-- Return dict of `_run_extraction`. -/
structure ExtractionResult where
  clauses : List Clause
  clause_count : Nat
  status : Option String := none
  error : Option String := none
deriving DecidableEq, Repr

/-- `try` body of `_run_extraction` (orchestrator.py lines 406-457). -/
def extractionBody (ex : Executors) (sid : String) (store : Store) :
    Except String (StageFlow ExtractionResult) := do
  let normalizedText ← getNormalizedText sid store
  let existingClauses ← getClauses sid store
  if ¬ existingClauses.isEmpty then
    pure (.early { clauses := existingClauses
                   clause_count := existingClauses.length
                   status := some "skipped_already_exists" })
  else do
    let clauses ← ex.extract normalizedText
    let store2 ← storeClauses sid store clauses
    pure (.done store2 { clauses := clauses, clause_count := clauses.length })

/-- `_run_extraction` (orchestrator.py lines 394-478): on failure a failed
trace is recorded, then `ExtractionError` is raised unless graceful
degradation is enabled, in which case the empty result is returned. -/
def runExtraction (ex : Executors) (gd : Bool) (sid : String) (store : Store)
    (traces : List AgentTrace) :
    Store × List AgentTrace × Except String ExtractionResult :=
  match extractionBody ex sid store with
  | .ok (.early r) => (store, traces, .ok r)
  | .ok (.done store2 r) =>
    (store2, traces ++ [successTrace "ClauseExtractionAgent"], .ok r)
  | .error e =>
    let traces2 := traces ++ [failureTrace "ClauseExtractionAgent" e]
    if ¬ gd then
      (store, traces2, .error ("Clause extraction failed: " ++ e))
    else
      (store, traces2, .ok { clauses := [], clause_count := 0, error := some e })

/-- Return dict of `_run_risk_scoring`. -/
structure RiskResult where
  risk_assessments : List RiskAssessment
  high_risk_count : Nat
  status : Option String := none
  warning : Option String := none
  error : Option String := none
deriving DecidableEq, Repr

/-- `try` body of `_run_risk_scoring` (orchestrator.py lines 492-554). -/
def riskScoringBody (ex : Executors) (sid : String) (store : Store) :
    Except String (StageFlow RiskResult) := do
  let clauses ← getClauses sid store
  if clauses.isEmpty then
    pure (.early { risk_assessments := []
                   high_risk_count := 0
                   warning := some "No clauses to score" })
  else do
    let existingRisks ← getRiskAssessments sid store
    if ¬ existingRisks.isEmpty then
      pure (.early { risk_assessments := existingRisks
                     high_risk_count := countHighRisk existingRisks
                     status := some "skipped_already_exists" })
    else do
      let assessments ← ex.score clauses
      let store2 ← storeRiskAssessments sid store assessments
      pure (.done store2 { risk_assessments := assessments
                           high_risk_count := countHighRisk assessments })

/-- `_run_risk_scoring` (orchestrator.py lines 480-574): on failure a
failed trace is recorded, then `RiskAnalysisError` is raised unless
graceful degradation is enabled. -/
def runRiskScoring (ex : Executors) (gd : Bool) (sid : String) (store : Store)
    (traces : List AgentTrace) :
    Store × List AgentTrace × Except String RiskResult :=
  match riskScoringBody ex sid store with
  | .ok (.early r) => (store, traces, .ok r)
  | .ok (.done store2 r) =>
    (store2, traces ++ [successTrace "RiskScoringAgent"], .ok r)
  | .error e =>
    let traces2 := traces ++ [failureTrace "RiskScoringAgent" e]
    if ¬ gd then
      (store, traces2, .error ("Risk scoring failed: " ++ e))
    else
      (store, traces2,
       .ok { risk_assessments := [], high_risk_count := 0, error := some e })

/-- Return dict of `_run_redline_generation`. -/
structure RedlineResult where
  redline_proposals : List RedlineProposal
  proposal_count : Nat
  status : Option String := none
  warning : Option String := none
  error : Option String := none
deriving DecidableEq, Repr

/-- `try` body of `_run_redline_generation` (orchestrator.py lines
588-650). -/
def redlineBody (ex : Executors) (sid : String) (store : Store) :
    Except String (StageFlow RedlineResult) := do
  let clauses ← getClauses sid store
  let riskAssessments ← getRiskAssessments sid store
  if clauses.isEmpty || riskAssessments.isEmpty then
    pure (.early { redline_proposals := []
                   proposal_count := 0
                   warning := some "Insufficient data for redline generation" })
  else do
    let existingProposals ← getRedlineProposals sid store
    if ¬ existingProposals.isEmpty then
      pure (.early { redline_proposals := existingProposals
                     proposal_count := existingProposals.length
                     status := some "skipped_already_exists" })
    else do
      let proposals ← ex.propose clauses riskAssessments
      let store2 ← storeRedlineProposals sid store proposals
      pure (.done store2 { redline_proposals := proposals
                           proposal_count := proposals.length })

/-- `_run_redline_generation` (orchestrator.py lines 576-670): on failure
a failed trace is recorded, then `RedlineGenerationError` is raised unless
graceful degradation is enabled. -/
def runRedlineGeneration (ex : Executors) (gd : Bool) (sid : String)
    (store : Store) (traces : List AgentTrace) :
    Store × List AgentTrace × Except String RedlineResult :=
  match redlineBody ex sid store with
  | .ok (.early r) => (store, traces, .ok r)
  | .ok (.done store2 r) =>
    (store2, traces ++ [successTrace "RedlineSuggestionAgent"], .ok r)
  | .error e =>
    let traces2 := traces ++ [failureTrace "RedlineSuggestionAgent" e]
    if ¬ gd then
      (store, traces2, .error ("Redline generation failed: " ++ e))
    else
      (store, traces2,
       .ok { redline_proposals := [], proposal_count := 0, error := some e })

/-- Return dict of `_run_summary_generation`. -/
structure SummaryResult where
  negotiation_summary : Option NegotiationSummary := none
  status : Option String := none
  warning : Option String := none
  error : Option String := none
deriving DecidableEq, Repr

/-- `try` body of `_run_summary_generation` (orchestrator.py lines
684-741). -/
def summaryBody (ex : Executors) (sid : String) (store : Store) :
    Except String (StageFlow SummaryResult) := do
  let clauses ← getClauses sid store
  let riskAssessments ← getRiskAssessments sid store
  let redlineProposals ← getRedlineProposals sid store
  let session ← getSessionState sid store
  if riskAssessments.isEmpty then
    pure (.early { warning := some "No risk assessments available for summary" })
  else do
    let existingSummary ← getNegotiationSummary sid store
    match existingSummary with
    | some s =>
      pure (.early { negotiation_summary := some s
                     status := some "skipped_already_exists" })
    | none => do
      let summary ← ex.summarize clauses riskAssessments redlineProposals
        (some session.contract_metadata)
      let store2 ← storeNegotiationSummary sid store summary
      pure (.done store2 { negotiation_summary := some summary })

/-- `_run_summary_generation` (orchestrator.py lines 672-761): on failure
a failed trace is recorded, then `ContractCopilotError` is raised unless
graceful degradation is enabled, in which case only the error string is
returned. -/
def runSummaryGeneration (ex : Executors) (gd : Bool) (sid : String)
    (store : Store) (traces : List AgentTrace) :
    Store × List AgentTrace × Except String SummaryResult :=
  match summaryBody ex sid store with
  | .ok (.early r) => (store, traces, .ok r)
  | .ok (.done store2 r) =>
    (store2, traces ++ [successTrace "NegotiationSummaryAgent"], .ok r)
  | .error e =>
    let traces2 := traces ++ [failureTrace "NegotiationSummaryAgent" e]
    if ¬ gd then
      (store, traces2, .error ("Summary generation failed: " ++ e))
    else
      (store, traces2, .ok { error := some e })

/-- Return dict of `_run_audit_compilation`. -/
structure AuditResult where
  audit_bundle : Option AuditBundle := none
  status : Option String := none
  error : Option String := none
deriving DecidableEq, Repr

/-- `try` body of `_run_audit_compilation` (orchestrator.py lines
775-825).  Note that no prior slot is checked for presence: the bundle is
compiled from whatever the session holds (including
`negotiation_summary = None`) and the current in-memory trace list. -/
def auditBody (ex : Executors) (sid : String) (store : Store)
    (traces : List AgentTrace) : Except String (StageFlow AuditResult) := do
  let session ← getSessionState sid store
  let existingBundle ← getAuditBundle sid store
  match existingBundle with
  | some b =>
    pure (.early { audit_bundle := some b
                   status := some "skipped_already_exists" })
  | none => do
    let bundle ← ex.audit sid session.normalized_text
      session.extracted_clauses session.risk_assessments
      session.redline_proposals session.negotiation_summary traces
      session.contract_metadata
    let store2 ← storeAuditBundle sid store bundle
    pure (.done store2 { audit_bundle := some bundle })

/-- `_run_audit_compilation` (orchestrator.py lines 763-845): on failure a
failed trace is recorded, then `ContractCopilotError` is raised unless
graceful degradation is enabled. -/
def runAuditCompilation (ex : Executors) (gd : Bool) (sid : String)
    (store : Store) (traces : List AgentTrace) :
    Store × List AgentTrace × Except String AuditResult :=
  match auditBody ex sid store traces with
  | .ok (.early r) => (store, traces, .ok r)
  | .ok (.done store2 r) =>
    (store2, traces ++ [successTrace "ComplianceAuditAgent"], .ok r)
  | .error e =>
    let traces2 := traces ++ [failureTrace "ComplianceAuditAgent" e]
    if ¬ gd then
      (store, traces2, .error ("Audit compilation failed: " ++ e))
    else
      (store, traces2, .ok { error := some e })

/-! ## Pipeline entry point (`ContractReviewOrchestrator.process_contract`) -/

/-- The dict returned by `process_contract` on normal completion
(orchestrator.py lines 254-268; `processing_time_seconds` omitted as
wall-clock data). -/
structure ProcessOutput where
  session_id : String
  status : String
  ingestion : IngestionResult
  extraction : ExtractionResult
  risk_scoring : RiskResult
  redline : RedlineResult
  summary : SummaryResult
  audit : AuditResult
  agent_traces : List AgentTrace
  errors : List String
deriving DecidableEq, Repr

/-- `process_contract` (orchestrator.py lines 155-280).

* `_prevTraces` is the orchestrator object's `self.agent_traces` as left
  by a previous invocation; line 184 (`self.agent_traces = []`) discards
  it before anything else runs, which is why it is unused below.
* Line 185 initialises `errors = []`; no statement in `process_contract`
  or its helpers ever appends to that local, so the `status` expression on
  line 256 sees an empty list on every normal return.
* Any exception raised by a stage helper is caught at line 270; after the
  best-effort `_save_partial_results` (which writes only the auxiliary
  custom-state table, not a stage slot) it is re-raised as
  `ContractCopilotError("Contract processing failed: ...")`.

Returns the final store, the final `self.agent_traces`, and the normal
return dict or the raised exception. -/
def processContract (ex : Executors) (gd : Bool) (filename : Option String)
    (sid : String) (store0 : Store) (_prevTraces : List AgentTrace) :
    Store × List AgentTrace × Except String ProcessOutput :=
  let traces0 : List AgentTrace := []
  let errors : List String := []
  match runIngestion ex filename sid store0 traces0 with
  | (store1, traces1, .error e) =>
    (store1, traces1, .error ("Contract processing failed: " ++ e))
  | (store1, traces1, .ok ing) =>
  match runExtraction ex gd sid store1 traces1 with
  | (store2, traces2, .error e) =>
    (store2, traces2, .error ("Contract processing failed: " ++ e))
  | (store2, traces2, .ok ext) =>
  match runRiskScoring ex gd sid store2 traces2 with
  | (store3, traces3, .error e) =>
    (store3, traces3, .error ("Contract processing failed: " ++ e))
  | (store3, traces3, .ok risk) =>
  match runRedlineGeneration ex gd sid store3 traces3 with
  | (store4, traces4, .error e) =>
    (store4, traces4, .error ("Contract processing failed: " ++ e))
  | (store4, traces4, .ok red) =>
  match runSummaryGeneration ex gd sid store4 traces4 with
  | (store5, traces5, .error e) =>
    (store5, traces5, .error ("Contract processing failed: " ++ e))
  | (store5, traces5, .ok summ) =>
  match runAuditCompilation ex gd sid store5 traces5 with
  | (store6, traces6, .error e) =>
    (store6, traces6, .error ("Contract processing failed: " ++ e))
  | (store6, traces6, .ok aud) =>
    (store6, traces6,
     .ok { session_id := sid
           status := if errors.isEmpty then "completed" else "completed_with_errors"
           ingestion := ing
           extraction := ext
           risk_scoring := risk
           redline := red
           summary := summ
           audit := aud
           agent_traces := traces6
           errors := errors })

/-- `ContractReviewOrchestrator.get_agent_traces`: the traces component of
the orchestrator state after the last processing run. -/
def getAgentTraces (result : Store × List AgentTrace × Except String ProcessOutput) :
    List AgentTrace :=
  result.2.1

/-- `process_contract_async` in `src/api/main.py` (lines 508-561): the
background task records `result["status"]` on a normal return, and the
status string `"failed"` when the orchestrator raises
(`DocumentParsingError`, `ContractCopilotError`, or anything else). -/
def asyncStatus (result : Except String ProcessOutput) : String :=
  match result with
  | .ok out => out.status
  | .error _ => "failed"

/-! ## Redline severity filtering
(`RedlineSuggestionAgent.generate_redlines`,
`src/adk/agents/redline_suggestion_agent.py` lines 96-214) -/

/-- Python dict comprehension lookup: in a comprehension over a list the
last entry with a given key wins. -/
def lastWithKey {α : Type} (key : α → String) (xs : List α) (k : String) :
    Option α :=
  (xs.filter fun x => key x == k).getLast?

/-- The dict returned by `generate_redlines` (`redline_summary` statistics
are derivable from the two categorised lists and omitted). -/
structure GenerateRedlinesResult where
  redline_proposals : List RedlineProposal
  proposal_count : Nat
  high_risk_redlines : List RedlineProposal
  medium_risk_redlines : List RedlineProposal
deriving DecidableEq, Repr

/-- `generate_redlines(clauses, risk_assessments)`.  `gen` models
`_generate_redline_for_clause` (template lookup plus LLM call); a
per-clause failure is logged and skipped (`continue with other clauses`),
exactly as in the source loop. -/
def generateRedlines
    (gen : Clause → RiskAssessment → Except String RedlineProposal)
    (clauses : List Clause) (riskAssessments : List RiskAssessment) :
    Except String GenerateRedlinesResult :=
  if clauses.isEmpty then
    .error "No clauses provided for redline generation"
  else if riskAssessments.isEmpty then
    .error "No risk assessments provided for redline generation"
  else
    let riskyAssessments := riskAssessments.filter fun r =>
      r.severity == Severity.high || r.severity == Severity.medium
    if riskyAssessments.isEmpty then
      .ok { redline_proposals := []
            proposal_count := 0
            high_risk_redlines := []
            medium_risk_redlines := [] }
    else
      let redlineProposals := riskyAssessments.foldl
        (fun acc r =>
          match lastWithKey Clause.id clauses r.clause_id with
          | none => acc
          | some c =>
            match gen c r with
            | .ok p => acc ++ [p]
            | .error _ => acc)
        []
      let riskOf := lastWithKey RiskAssessment.clause_id riskAssessments
      let highRiskRedlines := redlineProposals.filter fun p =>
        match riskOf p.clause_id with
        | some r => r.severity == Severity.high
        | none => false
      let mediumRiskRedlines := redlineProposals.filter fun p =>
        match riskOf p.clause_id with
        | some r => r.severity == Severity.medium
        | none => false
      .ok { redline_proposals := redlineProposals
            proposal_count := redlineProposals.length
            high_risk_redlines := highRiskRedlines
            medium_risk_redlines := mediumRiskRedlines }

/-! ## Concrete data for scenario runs -/

/-- Sample document metadata. -/
def sampleMetadata : ContractMetadata :=
  { parties := ["Acme Corp", "Widget LLC"] }

/-- Sample successful ingestion output. -/
def sampleIngest : IngestOutput :=
  { normalized_contract := "NORMALIZED TEXT", metadata := sampleMetadata
    page_count := 2 }

/-- Sample extracted clause (segment 1). -/
def clauseA : Clause :=
  { id := "c1", type := "liability", text := "Liability is unlimited."
    start_line := 1, end_line := 2, page_number := 1 }

/-- Sample extracted clause (segment 2). -/
def clauseB : Clause :=
  { id := "c2", type := "termination", text := "Either party may terminate."
    start_line := 3, end_line := 4, page_number := 1 }

/-- Sample extracted clause (segment 3). -/
def clauseC : Clause :=
  { id := "c3", type := "governing_law", text := "Governed by the laws of X."
    start_line := 5, end_line := 6, page_number := 2 }

/-- High-severity finding for clause `c1`. -/
def riskHigh : RiskAssessment :=
  { clause_id := "c1", severity := .high, risk_type := "liability"
    explanation := "Uncapped liability exposure." }

/-- Medium-severity finding for clause `c2`. -/
def riskMedium : RiskAssessment :=
  { clause_id := "c2", severity := .medium, risk_type := "termination"
    explanation := "Termination for convenience without notice." }

/-- Low-severity finding for clause `c3`. -/
def riskLow : RiskAssessment :=
  { clause_id := "c3", severity := .low, risk_type := "governing_law"
    explanation := "Standard governing-law clause." }

/-- Sample redline proposal for clause `c1`. -/
def proposalA : RedlineProposal :=
  { clause_id := "c1", original_text := "Liability is unlimited."
    proposed_text := "Liability is capped at fees paid."
    rationale := "Caps exposure.", diff := "-unlimited +capped" }

/-- Sample redline proposal for clause `c2`. -/
def proposalB : RedlineProposal :=
  { clause_id := "c2", original_text := "Either party may terminate."
    proposed_text := "Either party may terminate with 30 days notice."
    rationale := "Adds a notice period.", diff := "+with 30 days notice" }

/-- Sample negotiation summary. -/
def sampleSummary : NegotiationSummary :=
  { checklist := ["Cap liability"], draft_email := "Dear counterparty, ..."
    executive_summary := "One high risk found."
    priority_issues := ["Unlimited liability"] }

/-- A session row as created by a successful ingestion of `sampleIngest`
under id `S`. -/
def baseSession : ContractSession :=
  { session_id := "S", user_id := "default_user", filename := "Unknown Contract"
    contract_metadata := sampleMetadata, normalized_text := "NORMALIZED TEXT" }

/-- `ComplianceAuditAgent.compile_audit_bundle` always builds the bundle
structurally from its arguments (the markdown/JSON exports cannot fail on
these inputs); used as the audit executor of the scenario runs. -/
def auditExec (sid text : String) (cl : List Clause)
    (rs : List RiskAssessment) (ps : List RedlineProposal)
    (ns : Option NegotiationSummary) (tr : List AgentTrace)
    (_md : ContractMetadata) : Except String AuditBundle :=
  .ok { session_id := sid, original_contract := text
        extracted_clauses := cl, risk_assessments := rs
        redline_proposals := ps, negotiation_summary := ns
        agent_traces := tr, disclaimer := "AI-generated review; not legal advice." }

/-- Scenario: every stage succeeds with nonempty output. -/
def exAllOk : Executors :=
  { ingest := .ok sampleIngest
    extract := fun _ => .ok [clauseA, clauseB, clauseC]
    score := fun _ => .ok [riskHigh, riskMedium, riskLow]
    propose := fun _ _ => .ok [proposalA, proposalB]
    summarize := fun _ _ _ _ => .ok sampleSummary
    audit := auditExec }

/-- Scenario: the clause-extraction collaborator is down; all other
stages behave normally. -/
def exExtractFail : Executors :=
  { exAllOk with extract := fun _ => .error "LLM unavailable" }

/-- Scenario: the document parser is down. -/
def exIngestFail : Executors :=
  { exAllOk with ingest := .error "parse failure" }

/-- Scenario: the risk-scoring collaborator is down. -/
def exScoreFail : Executors :=
  { exAllOk with score := fun _ => .error "risk model unavailable" }

/-- Scenario: the summary collaborator is down. -/
def exSummaryFail : Executors :=
  { exAllOk with summarize := fun _ _ _ _ => .error "summary LLM timeout" }

/-- Graceful-degradation run in which clause extraction fails: ingestion
succeeds, extraction degrades to the empty clause list, risk scoring /
redlining / summary then take their no-data early returns, and the audit
stage still compiles a bundle.  Used as the failing input for the status
aggregation and trace bookkeeping claims. -/
def degradedRun : Store × List AgentTrace × Except String ProcessOutput :=
  processContract exExtractFail true none "S" none []

/-- Slot-order relation between the clause, risk and proposal slots of a
session row: slot 2 (risk assessments) is populated only if slot 1
(clauses) is, and slot 3 (redline proposals) only if slot 2 is.  An
absent row satisfies it trivially. -/
def slotOrderInv (store : Store) : Prop :=
  match store with
  | none => True
  | some s =>
    (s.risk_assessments ≠ [] → s.extracted_clauses ≠ [])
    ∧ (s.redline_proposals ≠ [] → s.risk_assessments ≠ [])

/-! ## Helper lemmas: slot-order preservation per stage -/

/-- The ingestion stage preserves the slot-order relation: it either
leaves the store untouched or creates a fresh row whose list slots are
all empty. -/
theorem runIngestion_inv :
    ∀ (ex : Executors) (fn : Option String) (sid : String) (store : Store)
      (traces : List AgentTrace),
      slotOrderInv store → slotOrderInv (runIngestion ex fn sid store traces).1 := by
  intro ex fn sid store traces h
  unfold runIngestion
  split
  · exact h
  · split
    · exact h
    · rename_i r store2 heq
      cases store with
      | some s => simp [createNewSession] at heq
      | none =>
        simp [createNewSession] at heq
        subst heq
        simp [slotOrderInv]

/-- The extraction stage preserves the slot-order relation: it writes the
clause slot only when that slot was empty, in which case the relation
forces the risk slot to be empty as well. -/
theorem runExtraction_inv :
    ∀ (ex : Executors) (gd : Bool) (sid : String) (store : Store)
      (traces : List AgentTrace),
      slotOrderInv store → slotOrderInv (runExtraction ex gd sid store traces).1 := by
  intro ex gd sid store traces h
  unfold runExtraction
  split
  · exact h
  · rename_i store2 r heq
    cases store with
    | none => simp [extractionBody, getNormalizedText, bind, Except.bind] at heq
    | some s =>
      simp [extractionBody, getNormalizedText, getClauses, storeClauses,
        bind, Except.bind, pure, Except.pure] at heq
      by_cases hc : s.extracted_clauses = []
      · rw [if_pos hc] at heq
        cases hx : ex.extract s.normalized_text with
        | error e => rw [hx] at heq; simp at heq
        | ok cl =>
          rw [hx] at heq
          simp at heq
          obtain ⟨h2, _⟩ := heq
          subst h2
          simp only [slotOrderInv] at h ⊢
          constructor
          · intro hr
            exact absurd (h.1 hr) (by simp [hc])
          · exact h.2
      · rw [if_neg hc] at heq
        simp at heq
  · split
    · exact h
    · exact h

/-- The risk-scoring stage preserves the slot-order relation: it writes
the risk slot only when the clause slot is nonempty and the risk slot was
empty. -/
theorem runRiskScoring_inv :
    ∀ (ex : Executors) (gd : Bool) (sid : String) (store : Store)
      (traces : List AgentTrace),
      slotOrderInv store → slotOrderInv (runRiskScoring ex gd sid store traces).1 := by
  intro ex gd sid store traces h
  unfold runRiskScoring
  split
  · exact h
  · rename_i store2 r heq
    cases store with
    | none => simp [riskScoringBody, getClauses, bind, Except.bind] at heq
    | some s =>
      simp [riskScoringBody, getClauses, getRiskAssessments,
        storeRiskAssessments, bind, Except.bind, pure, Except.pure] at heq
      by_cases hc : s.extracted_clauses = []
      · rw [if_pos hc] at heq
        simp at heq
      · rw [if_neg hc] at heq
        by_cases hr : s.risk_assessments = []
        · rw [if_pos hr] at heq
          cases hx : ex.score s.extracted_clauses with
          | error e => rw [hx] at heq; simp at heq
          | ok rs =>
            rw [hx] at heq
            simp at heq
            obtain ⟨h2, _⟩ := heq
            subst h2
            simp only [slotOrderInv] at h ⊢
            constructor
            · intro _
              exact hc
            · intro hp
              exact absurd (h.2 hp) (by simp [hr])
        · rw [if_neg hr] at heq
          simp at heq
  · split
    · exact h
    · exact h

/-- The redline stage preserves the slot-order relation: it writes the
proposal slot only when both the clause and risk slots are nonempty. -/
theorem runRedlineGeneration_inv :
    ∀ (ex : Executors) (gd : Bool) (sid : String) (store : Store)
      (traces : List AgentTrace),
      slotOrderInv store →
      slotOrderInv (runRedlineGeneration ex gd sid store traces).1 := by
  intro ex gd sid store traces h
  unfold runRedlineGeneration
  split
  · exact h
  · rename_i store2 r heq
    cases store with
    | none => simp [redlineBody, getClauses, bind, Except.bind] at heq
    | some s =>
      simp [redlineBody, getClauses, getRiskAssessments,
        getRedlineProposals, storeRedlineProposals, bind, Except.bind,
        pure, Except.pure] at heq
      by_cases hc : s.extracted_clauses = []
      · simp [hc] at heq
      · by_cases hr : s.risk_assessments = []
        · simp [hc, hr] at heq
        · simp [hc, hr] at heq
          by_cases hp : s.redline_proposals = []
          · rw [if_pos hp] at heq
            cases hx : ex.propose s.extracted_clauses s.risk_assessments with
            | error e => rw [hx] at heq; simp at heq
            | ok ps =>
              rw [hx] at heq
              simp at heq
              obtain ⟨h2, _⟩ := heq
              subst h2
              simp only [slotOrderInv] at h ⊢
              exact ⟨fun _ => hc, fun _ => hr⟩
          · rw [if_neg hp] at heq
            simp at heq
  · split
    · exact h
    · exact h

/-- The summary stage preserves the slot-order relation: it touches only
the summary slot. -/
theorem runSummaryGeneration_inv :
    ∀ (ex : Executors) (gd : Bool) (sid : String) (store : Store)
      (traces : List AgentTrace),
      slotOrderInv store →
      slotOrderInv (runSummaryGeneration ex gd sid store traces).1 := by
  intro ex gd sid store traces h
  unfold runSummaryGeneration
  split
  · exact h
  · rename_i store2 r heq
    cases store with
    | none => simp [summaryBody, getClauses, bind, Except.bind] at heq
    | some s =>
      simp [summaryBody, getClauses, getRiskAssessments,
        getRedlineProposals, getSessionState, getNegotiationSummary,
        storeNegotiationSummary, bind, Except.bind, pure, Except.pure] at heq
      by_cases hr : s.risk_assessments = []
      · simp [hr] at heq
      · simp [hr] at heq
        cases hn : s.negotiation_summary with
        | some ns => rw [hn] at heq; simp at heq
        | none =>
          rw [hn] at heq
          cases hx : ex.summarize s.extracted_clauses s.risk_assessments
              s.redline_proposals (some s.contract_metadata) with
          | error e => rw [hx] at heq; simp at heq
          | ok ns =>
            rw [hx] at heq
            simp at heq
            obtain ⟨h2, _⟩ := heq
            subst h2
            simp only [slotOrderInv] at h ⊢
            exact h
  · split
    · exact h
    · exact h

/-- The audit stage preserves the slot-order relation: it touches only
the audit-bundle slot. -/
theorem runAuditCompilation_inv :
    ∀ (ex : Executors) (gd : Bool) (sid : String) (store : Store)
      (traces : List AgentTrace),
      slotOrderInv store →
      slotOrderInv (runAuditCompilation ex gd sid store traces).1 := by
  intro ex gd sid store traces h
  unfold runAuditCompilation
  split
  · exact h
  · rename_i store2 r heq
    cases store with
    | none => simp [auditBody, getSessionState, bind, Except.bind] at heq
    | some s =>
      simp [auditBody, getSessionState, getAuditBundle, storeAuditBundle,
        bind, Except.bind, pure, Except.pure] at heq
      cases hb : s.audit_bundle with
      | some b => rw [hb] at heq; simp at heq
      | none =>
        rw [hb] at heq
        cases hx : ex.audit sid s.normalized_text s.extracted_clauses
            s.risk_assessments s.redline_proposals s.negotiation_summary
            traces s.contract_metadata with
        | error e => rw [hx] at heq; simp at heq
        | ok b =>
          rw [hx] at heq
          simp at heq
          obtain ⟨h2, _⟩ := heq
          subst h2
          simp only [slotOrderInv] at h ⊢
          exact h
  · split
    · exact h
    · exact h

/-- On a normal return, the `agent_traces` field of the result dict is
exactly the orchestrator's final in-memory trace list for this
invocation. -/
theorem processContract_ok_agent_traces :
    ∀ (ex : Executors) (gd : Bool) (fn : Option String) (sid : String)
      (store : Store) (prev : List AgentTrace) (st : Store)
      (tr : List AgentTrace) (out : ProcessOutput),
      processContract ex gd fn sid store prev = (st, tr, .ok out) →
      out.agent_traces = tr := by
  intro ex gd fn sid store prev st tr out h
  unfold processContract at h
  dsimp only at h
  repeat' split at h
  all_goals simp_all
  all_goals (rw [← h.2.2]; exact h.2.1)

/-! ## Claim theorems -/

/-- Claim C6: retry policy.  `calculate_delay` computes
`min(initial_delay * base ^ i, max_delay)` for attempt `i` (0-indexed);
under the default configuration (5 attempts, base 7, initial delay 1s,
max delay 60s) a callee that always raises a retryable exception is
invoked 5 times (the propagated exception is the one raised on attempt
index 4), the delays slept between attempts are exactly
`[1, 7, 49, 60]` — strictly increasing and capped — and the last
attempt's exception is propagated to the caller. -/
theorem retry_exponential_backoff_exhaustion :
    (∀ (cfg : RetryConfig) (i : Nat),
      cfg.calculate_delay i
        = min (cfg.initial_delay * (cfg.exp_base : ℚ) ^ i) cfg.max_delay)
    ∧ GEMINI_RETRY_CONFIG.attempts = 5
    ∧ GEMINI_RETRY_CONFIG.exp_base = 7
    ∧ GEMINI_RETRY_CONFIG.initial_delay = 1
    ∧ GEMINI_RETRY_CONFIG.max_delay = 60
    ∧ (∀ (α : Type) (em : Nat → String),
        retryWithBackoff GEMINI_RETRY_CONFIG
            (fun i => (.error (em i) : Except String α))
          = (.error (em 4), [1, 7, 49, 60]))
    ∧ List.Chain' (fun a b => a < b) ([1, 7, 49, 60] : List ℚ)
    ∧ ([1, 7, 49, 60] : List ℚ).length + 1 = GEMINI_RETRY_CONFIG.attempts := by
  refine ⟨fun cfg i => rfl, rfl, rfl, rfl, rfl, ?_, ?_, rfl⟩
  · intro α em
    simp only [retryWithBackoff, retryGo, GEMINI_RETRY_CONFIG,
      RetryConfig.calculate_delay]
    norm_num
  · simp only [List.chain'_cons, List.chain'_singleton, and_true]
    norm_num

/-- Claim C7, counterexample: writing clauses twice for the same session is
not a no-op — the second `store_clauses` call succeeds and the stored
value is the second write's value, not the first's. -/
theorem second_write_overwrites_cex :
    storeClauses "S" (some baseSession) [clauseA]
      = .ok (some { baseSession with extracted_clauses := [clauseA] })
    ∧ storeClauses "S" (some { baseSession with extracted_clauses := [clauseA] }) [clauseB]
      = .ok (some { baseSession with extracted_clauses := [clauseB] })
    ∧ ([clauseB] : List Clause) ≠ [clauseA] := by
  refine ⟨rfl, rfl, ?_⟩
  simp [clauseA, clauseB]

/-- Claim C7, amended: slot writes are last-write-wins.  `store_clauses` (like
every `store_*` accessor, via `update_session`'s unconditional SQL
`UPDATE` and the `INSERT OR REPLACE` state-table copy) overwrites: after
two consecutive writes the stored value equals the second write's value. -/
theorem slot_write_last_write_wins :
    ∀ (sid : String) (s : ContractSession) (v1 v2 : List Clause),
      (do
        let st1 ← storeClauses sid (some s) v1
        storeClauses sid st1 v2)
        = Except.ok (some { s with extracted_clauses := v2 }) := by
  intro sid s v1 v2
  rfl

/-- Claim C2, counterexample: with graceful degradation ENABLED, an ingestion
(stage 0) executor failure does not substitute a default value and does
not proceed to stage 1 — the run aborts with
`ContractCopilotError("Contract processing failed: Ingestion failed: ...")`
after recording a single failed trace. -/
theorem ingestion_failure_not_degraded_cex :
    processContract exIngestFail true none "S3" none []
      = (none, [failureTrace "IngestionAgent" "parse failure"],
         .error "Contract processing failed: Ingestion failed: parse failure") := rfl

/-- Claim C3: in the graceful-degradation run `degradedRun` the clause
extraction stage fails (one trace has `success = false`), yet
`process_contract` returns status `"completed"` — not
`"completed_with_errors"` — and an empty `errors` list: the `errors`
local initialised at orchestrator.py line 185 is never appended to. -/
theorem status_aggregation_never_reports_errors :
    degradedRun.2.2.toOption.map ProcessOutput.status = some "completed"
    ∧ degradedRun.2.2.toOption.map ProcessOutput.errors = some []
    ∧ (degradedRun.2.1.filter fun t => !t.success).length = 1 :=
  ⟨rfl, rfl, rfl⟩

/-- Claim C5: in `degradedRun` exactly three stages reach a terminal outcome
(ingestion succeeds, extraction fails after degradation, audit succeeds;
risk scoring, redlining and summary take their no-data early returns
without executing) and exactly three trace records exist — but the single
`success = false` record has no counterpart in the returned `errors`
list, which is empty: the 1:1 correspondence the claim states does not
hold. -/
theorem trace_error_correspondence_broken :
    degradedRun.2.1.map AgentTrace.agent_name
      = ["IngestionAgent", "ClauseExtractionAgent", "ComplianceAuditAgent"]
    ∧ (degradedRun.2.1.filter fun t => !t.success).length = 1
    ∧ degradedRun.2.2.toOption.map (fun o => o.errors.length) = some 0 :=
  ⟨rfl, rfl, rfl⟩

/-- Claim C8, counterexample: a graceful-degradation run in which the summary
collaborator fails ends with the audit bundle (slot 5) stored while the
negotiation summary (slot 4) is absent — the audit stage checks no prior
slot before compiling and storing its bundle. -/
theorem audit_stored_without_summary_cex :
    ((processContract exSummaryFail true none "S8" none []).1.map
      fun s => (s.negotiation_summary, s.audit_bundle.isSome))
      = some (none, true) := rfl


/-- Claim C2, amended: the degradation substitution applies uniformly to
stages 1-5 (extraction, risk scoring, redlining, summary, audit): when
the stage's `try` body fails and graceful degradation is enabled, the
orchestrator records a failed trace, substitutes the stage's empty or
default result, leaves the store unchanged, and proceeds.  It does NOT
apply to stage 0 (ingestion): an ingestion failure always records a
failed trace and aborts the whole run with `DocumentParsingError`,
regardless of the degradation flag. -/
theorem degradation_substitution_stages_1_to_5 :
    (∀ (ex : Executors) (sid : String) (store : Store)
       (traces : List AgentTrace) (e : String),
      extractionBody ex sid store = .error e →
      runExtraction ex true sid store traces
        = (store, traces ++ [failureTrace "ClauseExtractionAgent" e],
           .ok { clauses := [], clause_count := 0, error := some e }))
    ∧ (∀ (ex : Executors) (sid : String) (store : Store)
         (traces : List AgentTrace) (e : String),
        riskScoringBody ex sid store = .error e →
        runRiskScoring ex true sid store traces
          = (store, traces ++ [failureTrace "RiskScoringAgent" e],
             .ok { risk_assessments := [], high_risk_count := 0, error := some e }))
    ∧ (∀ (ex : Executors) (sid : String) (store : Store)
         (traces : List AgentTrace) (e : String),
        redlineBody ex sid store = .error e →
        runRedlineGeneration ex true sid store traces
          = (store, traces ++ [failureTrace "RedlineSuggestionAgent" e],
             .ok { redline_proposals := [], proposal_count := 0, error := some e }))
    ∧ (∀ (ex : Executors) (sid : String) (store : Store)
         (traces : List AgentTrace) (e : String),
        summaryBody ex sid store = .error e →
        runSummaryGeneration ex true sid store traces
          = (store, traces ++ [failureTrace "NegotiationSummaryAgent" e],
             .ok { error := some e }))
    ∧ (∀ (ex : Executors) (sid : String) (store : Store)
         (traces : List AgentTrace) (e : String),
        auditBody ex sid store traces = .error e →
        runAuditCompilation ex true sid store traces
          = (store, traces ++ [failureTrace "ComplianceAuditAgent" e],
             .ok { error := some e }))
    ∧ (∀ (ex : Executors) (gd : Bool) (fn : Option String) (sid : String)
         (store : Store) (prev : List AgentTrace) (e : String),
        ex.ingest = .error e →
        processContract ex gd fn sid store prev
          = (store, [failureTrace "IngestionAgent" e],
             .error ("Contract processing failed: " ++ ("Ingestion failed: " ++ e)))) := by
  refine ⟨?_, ?_, ?_, ?_, ?_, ?_⟩
  · intro ex sid store traces e h
    simp [runExtraction, h]
  · intro ex sid store traces e h
    simp [runRiskScoring, h]
  · intro ex sid store traces e h
    simp [runRedlineGeneration, h]
  · intro ex sid store traces e h
    simp [runSummaryGeneration, h]
  · intro ex sid store traces e h
    simp [runAuditCompilation, h]
  · intro ex gd fn sid store prev e h
    simp [processContract, runIngestion, h]

/-- Witness for the amended claim C2, at a failing extraction executor
and a failing ingestion executor. -/
theorem degradation_substitution_stages_1_to_5_witness :
    extractionBody exExtractFail "S" (some baseSession) = .error "LLM unavailable"
    ∧ runExtraction exExtractFail true "S" (some baseSession) []
      = (some baseSession, [failureTrace "ClauseExtractionAgent" "LLM unavailable"],
         .ok { clauses := [], clause_count := 0, error := some "LLM unavailable" })
    ∧ processContract exIngestFail true none "S3" none []
      = (none, [failureTrace "IngestionAgent" "parse failure"],
         .error ("Contract processing failed: " ++ ("Ingestion failed: " ++ "parse failure"))) := by
  refine ⟨rfl, ?_, ?_⟩
  · exact degradation_substitution_stages_1_to_5.1 exExtractFail "S"
      (some baseSession) [] "LLM unavailable" rfl
  · exact degradation_substitution_stages_1_to_5.2.2.2.2.2 exIngestFail true
      none "S3" none [] "parse failure" rfl

/-- Claim C1: invoking `process_contract` again on a run whose slot 0
(normalized text) is populated does NOT skip stages and execute the rest:
the broken resume-skip branch of `_run_ingestion` (an `AttributeError` on
the nonexistent `ContractMetadata.page_count`, silently swallowed) falls
through to re-ingestion, which aborts the run — either the re-parse fails
or the duplicate-session `INSERT` raises — so a single failed ingestion
trace is recorded and `ContractCopilotError` is raised; stages 1..5 never
run.  The slots themselves are left unchanged. -/
theorem resume_populated_run_aborts :
    ∀ (ex : Executors) (gd : Bool) (fn : Option String) (sid : String)
      (s : ContractSession) (prev : List AgentTrace),
      s.normalized_text ≠ "" →
      ∃ e, processContract ex gd fn sid (some s) prev
        = (some s, [failureTrace "IngestionAgent" e],
           .error ("Contract processing failed: " ++ ("Ingestion failed: " ++ e))) := by
  intro ex gd fn sid s prev _h
  cases hi : ex.ingest with
  | error e =>
    exact ⟨e, by simp [processContract, runIngestion, hi]⟩
  | ok r =>
    exact ⟨"Session creation failed: UNIQUE constraint failed: sessions.session_id",
      by simp [processContract, runIngestion, hi, createNewSession, StageFlow.early]⟩

/-- Witness for claim C1: re-running the all-successful executors on the
already-ingested `baseSession` aborts. -/
theorem resume_populated_run_aborts_witness :
    baseSession.normalized_text ≠ ""
    ∧ ∃ e, processContract exAllOk true none "S" (some baseSession) []
        = (some baseSession, [failureTrace "IngestionAgent" e],
           .error ("Contract processing failed: " ++ ("Ingestion failed: " ++ e))) :=
  ⟨by decide,
   resume_populated_run_aborts exAllOk true none "S" baseSession [] (by decide)⟩

/-- Claim C4: with graceful degradation disabled, a risk-scoring (stage
2) executor failure in a fresh run aborts immediately: the final store
holds exactly the ingestion and extraction outputs, no partial slot is
written for the failed stage (`risk_assessments = []`) and the later
slots (proposals, summary, audit bundle) are absent; the API layer
reports status `"failed"` for the raised exception. -/
theorem no_degradation_score_failure_aborts :
    ∀ (ex : Executors) (fn : Option String) (sid : String)
      (prev : List AgentTrace) (r : IngestOutput) (cl : List Clause) (e : String),
      ex.ingest = .ok r →
      ex.extract r.normalized_contract = .ok cl →
      cl.isEmpty = false →
      ex.score cl = .error e →
      processContract ex false fn sid none prev
        = (some { session_id := sid, user_id := "default_user",
                  filename := fn.getD "Unknown Contract",
                  contract_metadata := r.metadata,
                  normalized_text := r.normalized_contract,
                  extracted_clauses := cl },
           [successTrace "IngestionAgent",
            successTrace "ClauseExtractionAgent",
            failureTrace "RiskScoringAgent" e],
           .error ("Contract processing failed: " ++ ("Risk scoring failed: " ++ e)))
      ∧ ((processContract ex false fn sid none prev).1.map fun s =>
          (s.risk_assessments, s.redline_proposals, s.negotiation_summary,
           s.audit_bundle)) = some ([], [], none, none)
      ∧ asyncStatus (processContract ex false fn sid none prev).2.2 = "failed" := by
  intro ex fn sid prev r cl e hi hx hcl hs
  have hmain : processContract ex false fn sid none prev
      = (some { session_id := sid, user_id := "default_user",
                filename := fn.getD "Unknown Contract",
                contract_metadata := r.metadata,
                normalized_text := r.normalized_contract,
                extracted_clauses := cl },
         [successTrace "IngestionAgent",
          successTrace "ClauseExtractionAgent",
          failureTrace "RiskScoringAgent" e],
         .error ("Contract processing failed: " ++ ("Risk scoring failed: " ++ e))) := by
    simp [processContract, runIngestion, hi, createNewSession,
      runExtraction, extractionBody, getNormalizedText, getClauses,
      storeClauses, runRiskScoring, riskScoringBody, getRiskAssessments,
      hx, hcl, hs, bind, Except.bind, pure, Except.pure]
  refine ⟨hmain, ?_, ?_⟩
  · rw [hmain]
    rfl
  · rw [hmain]
    rfl

/-- Witness for claim C4, with a concrete failing risk-scoring
executor. -/
theorem no_degradation_score_failure_aborts_witness :
    processContract exScoreFail false none "S4" none []
      = (some { session_id := "S4", user_id := "default_user",
                filename := "Unknown Contract",
                contract_metadata := sampleIngest.metadata,
                normalized_text := sampleIngest.normalized_contract,
                extracted_clauses := [clauseA, clauseB, clauseC] },
         [successTrace "IngestionAgent",
          successTrace "ClauseExtractionAgent",
          failureTrace "RiskScoringAgent" "risk model unavailable"],
         .error ("Contract processing failed: "
           ++ ("Risk scoring failed: " ++ "risk model unavailable")))
    ∧ ((processContract exScoreFail false none "S4" none []).1.map fun s =>
        (s.risk_assessments, s.redline_proposals, s.negotiation_summary,
         s.audit_bundle)) = some ([], [], none, none)
    ∧ asyncStatus (processContract exScoreFail false none "S4" none []).2.2
      = "failed" :=
  no_degradation_score_failure_aborts exScoreFail none "S4" []
    sampleIngest [clauseA, clauseB, clauseC] "risk model unavailable"
    rfl rfl rfl rfl

/-- Claim C8, amended: the stage-order invariant holds for the early
slots — slot 2 (risk assessments) is never populated while slot 1
(clauses) is absent, and slot 3 (redline proposals) never while slot 2 is
absent — and is preserved by every `process_contract` run; it does not
extend to the summary and audit slots (see the counterexample, where the
audit bundle is stored while the negotiation summary is absent). -/
theorem slot_order_invariant_early_stages :
    ∀ (ex : Executors) (gd : Bool) (fn : Option String) (sid : String)
      (store : Store) (prev : List AgentTrace),
      slotOrderInv store →
      slotOrderInv (processContract ex gd fn sid store prev).1 := by
  intro ex gd fn sid store prev h0
  unfold processContract
  dsimp only
  split
  · rename_i heq
    have h1 := runIngestion_inv ex fn sid store [] h0
    rw [heq] at h1
    exact h1
  · rename_i store1 traces1 ing heq1
    have h1 := runIngestion_inv ex fn sid store [] h0
    rw [heq1] at h1
    split
    · rename_i heq
      have h2 := runExtraction_inv ex gd sid store1 traces1 h1
      rw [heq] at h2
      exact h2
    · rename_i store2 traces2 ext heq2
      have h2 := runExtraction_inv ex gd sid store1 traces1 h1
      rw [heq2] at h2
      split
      · rename_i heq
        have h3 := runRiskScoring_inv ex gd sid store2 traces2 h2
        rw [heq] at h3
        exact h3
      · rename_i store3 traces3 risk heq3
        have h3 := runRiskScoring_inv ex gd sid store2 traces2 h2
        rw [heq3] at h3
        split
        · rename_i heq
          have h4 := runRedlineGeneration_inv ex gd sid store3 traces3 h3
          rw [heq] at h4
          exact h4
        · rename_i store4 traces4 red heq4
          have h4 := runRedlineGeneration_inv ex gd sid store3 traces3 h3
          rw [heq4] at h4
          split
          · rename_i heq
            have h5 := runSummaryGeneration_inv ex gd sid store4 traces4 h4
            rw [heq] at h5
            exact h5
          · rename_i store5 traces5 summ heq5
            have h5 := runSummaryGeneration_inv ex gd sid store4 traces4 h4
            rw [heq5] at h5
            split
            · rename_i heq
              have h6 := runAuditCompilation_inv ex gd sid store5 traces5 h5
              rw [heq] at h6
              exact h6
            · rename_i store6 traces6 aud heq6
              have h6 := runAuditCompilation_inv ex gd sid store5 traces5 h5
              rw [heq6] at h6
              exact h6

/-- Witness for the amended claim C8, on a fresh all-successful run. -/
theorem slot_order_invariant_early_stages_witness :
    slotOrderInv none
    ∧ slotOrderInv (processContract exAllOk true none "S5" none []).1 :=
  ⟨trivial,
   slot_order_invariant_early_stages exAllOk true none "S5" none [] trivial⟩

/-- Claim C9: the redline stage produces proposals only for medium- and
high-severity findings: on three segments of which one triggers a high
and one a medium finding, `generate_redlines` returns exactly the two
proposals generated for those findings (none for the low one); and when
the stored clause list or finding list is empty the orchestrator returns
the empty proposal list without consulting the redline collaborator at
all (the outcome is the same for every `propose` executor). -/
theorem propose_severity_filtering :
    ∀ (gen : Clause → RiskAssessment → Except String RedlineProposal)
      (p1 p2 : RedlineProposal),
      gen clauseA riskHigh = .ok p1 →
      gen clauseB riskMedium = .ok p2 →
      ((generateRedlines gen [clauseA, clauseB, clauseC]
          [riskHigh, riskMedium, riskLow]).map
        fun o => (o.redline_proposals, o.proposal_count)) = .ok ([p1, p2], 2)
      ∧ (∀ (ex : Executors) (gd : Bool) (sid : String) (s : ContractSession)
          (traces : List AgentTrace),
          s.extracted_clauses = [] ∨ s.risk_assessments = [] →
          runRedlineGeneration ex gd sid (some s) traces
            = (some s, traces,
               .ok { redline_proposals := [], proposal_count := 0,
                     warning := some "Insufficient data for redline generation" })) := by
  intro gen p1 p2 h1 h2
  constructor
  · simp only [clauseA, riskHigh] at h1
    simp only [clauseB, riskMedium] at h2
    simp [generateRedlines, lastWithKey, clauseA, clauseB, clauseC,
      riskHigh, riskMedium, riskLow, h1, h2, Except.map]
  · intro ex gd sid s traces hempty
    rcases hempty with h | h <;>
      simp [runRedlineGeneration, redlineBody, getClauses,
        getRiskAssessments, getRedlineProposals, h, bind, Except.bind,
        pure, Except.pure]

/-- Witness for claim C9, with a constant generation function and the
freshly-ingested session (empty clause slot). -/
theorem propose_severity_filtering_witness :
    ((generateRedlines (fun _ _ => .ok proposalA) [clauseA, clauseB, clauseC]
        [riskHigh, riskMedium, riskLow]).map
      fun o => (o.redline_proposals, o.proposal_count))
      = .ok ([proposalA, proposalA], 2)
    ∧ runRedlineGeneration exAllOk true "S9" (some baseSession) []
      = (some baseSession, [],
         .ok { redline_proposals := [], proposal_count := 0,
               warning := some "Insufficient data for redline generation" }) := by
  have h := propose_severity_filtering (fun _ _ => .ok proposalA)
    proposalA proposalA rfl rfl
  exact ⟨h.1, h.2 exAllOk true "S9" baseSession [] (Or.inl rfl)⟩

/-- Claim C10: `process_contract` resets the in-memory trace list before
doing anything (orchestrator.py line 184), so its entire outcome is
independent of whatever traces a previous invocation left behind, and on
a normal return the `agent_traces` field of the result dict is exactly
the trace list recorded during this single invocation (the same list the
audit stage was handed and `get_agent_traces` returns afterwards). -/
theorem per_call_trace_reset :
    ∀ (ex : Executors) (gd : Bool) (fn : Option String) (sid : String)
      (store : Store) (prev1 prev2 : List AgentTrace) (st : Store)
      (tr : List AgentTrace) (out : ProcessOutput),
      processContract ex gd fn sid store prev1
        = processContract ex gd fn sid store prev2
      ∧ (processContract ex gd fn sid store prev1 = (st, tr, .ok out) →
         out.agent_traces = tr) :=
  fun ex gd fn sid store prev1 _prev2 st tr out =>
    ⟨rfl, fun h => processContract_ok_agent_traces ex gd fn sid store prev1 st tr out h⟩

/-- Witness for claim C10, on the all-successful run with a stale trace
from a previous invocation. -/
theorem per_call_trace_reset_witness :
    processContract exAllOk true none "S5" none [successTrace "IngestionAgent"]
      = processContract exAllOk true none "S5" none []
    ∧ ∃ st tr out,
        processContract exAllOk true none "S5" none [successTrace "IngestionAgent"]
          = (st, tr, Except.ok out)
        ∧ out.agent_traces = tr := by
  obtain ⟨st, tr, out, hE⟩ :
      ∃ st tr out,
        processContract exAllOk true none "S5" none [successTrace "IngestionAgent"]
          = (st, tr, Except.ok out) := ⟨_, _, _, rfl⟩
  have h := per_call_trace_reset exAllOk true none "S5" none
    [successTrace "IngestionAgent"] [] st tr out
  exact ⟨h.1, st, tr, out, hE, h.2 hE⟩

end ContractCopilot
